import Mathlib

/-!
Verification development for a fragment of a Kubernetes Cluster API
infrastructure provider for OpenStack.

Embedded here, translated from the Go source:
  * the security-group rule tables and generators of the `networking`
    package (`defaultRules`, `getSGControlPlane*`, `getSGWorker*`,
    `GetSG*`);
  * the `GetAvailabilityZones` wrapper of the `compute` package, with the
    external SDK call modelled as an explicit input;
  * the instance network-status accessors (`IP`, `FloatingIP`,
    `Addresses`).  Their implementation file is not part of the provided
    sources (only its tests are), so those definitions are modelled from
    the specification; each such definition says so in its doc comment.
-/

/-- Security group rule, translated from the Go struct
`infrav1.SecurityGroupRule` as used by the `networking` package.  Fields
that a Go composite literal omits take the Go zero value, mirrored here by
default field values. -/
structure SecurityGroupRule where
  Description : String := ""
  Direction : String := ""
  EtherType : String := ""
  PortRangeMin : Int := 0
  PortRangeMax : Int := 0
  Protocol : String := ""
  RemoteGroupID : String := ""
  RemoteIPPrefix : String := ""
deriving DecidableEq, Repr

/-- Translated from `var defaultRules` in the `networking` package. -/
def defaultRules : List SecurityGroupRule :=
  [ { Direction := "egress"
      Description := "Full open"
      EtherType := "IPv4"
      PortRangeMin := 0
      PortRangeMax := 0
      Protocol := ""
      RemoteIPPrefix := "" },
    { Direction := "egress"
      Description := "Full open"
      EtherType := "IPv6"
      PortRangeMin := 0
      PortRangeMax := 0
      Protocol := ""
      RemoteIPPrefix := "" } ]

/-- Translated from Go `getSGControlPlaneCommon`: permit traffic for etcd,
kubelet. -/
def getSGControlPlaneCommon (remoteGroupIDSelf secWorkerGroupID : String) :
    List SecurityGroupRule :=
  [ { Description := "Etcd"
      Direction := "ingress"
      EtherType := "IPv4"
      PortRangeMin := 2379
      PortRangeMax := 2380
      Protocol := "tcp"
      RemoteGroupID := remoteGroupIDSelf },
    { Description := "Kubelet API"
      Direction := "ingress"
      EtherType := "IPv4"
      PortRangeMin := 10250
      PortRangeMax := 10250
      Protocol := "tcp"
      RemoteGroupID := remoteGroupIDSelf },
    { Description := "Kubelet API"
      Direction := "ingress"
      EtherType := "IPv4"
      PortRangeMin := 10250
      PortRangeMax := 10250
      Protocol := "tcp"
      RemoteGroupID := secWorkerGroupID } ]

/-- Translated from Go `getSGControlPlaneCalico`: permit traffic for
calico. -/
def getSGControlPlaneCalico (remoteGroupIDSelf secWorkerGroupID : String) :
    List SecurityGroupRule :=
  [ { Description := "BGP (calico)"
      Direction := "ingress"
      EtherType := "IPv4"
      PortRangeMin := 179
      PortRangeMax := 179
      Protocol := "tcp"
      RemoteGroupID := remoteGroupIDSelf },
    { Description := "BGP (calico)"
      Direction := "ingress"
      EtherType := "IPv4"
      PortRangeMin := 179
      PortRangeMax := 179
      Protocol := "tcp"
      RemoteGroupID := secWorkerGroupID },
    { Description := "IP-in-IP (calico)"
      Direction := "ingress"
      EtherType := "IPv4"
      Protocol := "ipip"
      RemoteGroupID := remoteGroupIDSelf },
    { Description := "IP-in-IP (calico)"
      Direction := "ingress"
      EtherType := "IPv4"
      Protocol := "ipip"
      RemoteGroupID := secWorkerGroupID } ]

/-- Translated from Go `getSGControlPlaneCilium`: permit traffic for
cilium. -/
def getSGControlPlaneCilium (remoteGroupIDSelf secWorkerGroupID : String) :
    List SecurityGroupRule :=
  [ { Description := "HealthChecks (cilium)"
      Direction := "ingress"
      EtherType := "IPv4"
      PortRangeMin := 4240
      PortRangeMax := 4240
      Protocol := "tcp"
      RemoteGroupID := remoteGroupIDSelf },
    { Description := "HealthChecks (cilium)"
      Direction := "ingress"
      EtherType := "IPv4"
      PortRangeMin := 4240
      PortRangeMax := 4240
      Protocol := "tcp"
      RemoteGroupID := secWorkerGroupID },
    { Description := "VXLAN (cilium)"
      Direction := "ingress"
      EtherType := "IPv4"
      PortRangeMin := 8472
      PortRangeMax := 8472
      Protocol := "udp"
      RemoteGroupID := remoteGroupIDSelf },
    { Description := "VXLAN (cilium)"
      Direction := "ingress"
      EtherType := "IPv4"
      PortRangeMin := 8472
      PortRangeMax := 8472
      Protocol := "udp"
      RemoteGroupID := secWorkerGroupID },
    { Description := "ICMP HealthCheck (cilium)"
      Direction := "ingress"
      EtherType := "IPv4"
      PortRangeMin := 8
      PortRangeMax := 0
      Protocol := "icmp"
      RemoteGroupID := remoteGroupIDSelf },
    { Description := "ICMP HealthCheck (cilium)"
      Direction := "ingress"
      EtherType := "IPv4"
      PortRangeMin := 8
      PortRangeMax := 0
      Protocol := "icmp"
      RemoteGroupID := secWorkerGroupID } ]

/-- Translated from Go `getSGWorkerCommon`: permit traffic for kubelet. -/
def getSGWorkerCommon (remoteGroupIDSelf secControlPlaneGroupID : String) :
    List SecurityGroupRule :=
  [ { Description := "Kubelet API"
      Direction := "ingress"
      EtherType := "IPv4"
      PortRangeMin := 10250
      PortRangeMax := 10250
      Protocol := "tcp"
      RemoteGroupID := remoteGroupIDSelf },
    { Description := "Kubelet API"
      Direction := "ingress"
      EtherType := "IPv4"
      PortRangeMin := 10250
      PortRangeMax := 10250
      Protocol := "tcp"
      RemoteGroupID := secControlPlaneGroupID } ]

/-- Translated from Go `getSGWorkerCalico`: permit traffic for calico. -/
def getSGWorkerCalico (remoteGroupIDSelf secControlPlaneGroupID : String) :
    List SecurityGroupRule :=
  [ { Description := "BGP (calico)"
      Direction := "ingress"
      EtherType := "IPv4"
      PortRangeMin := 179
      PortRangeMax := 179
      Protocol := "tcp"
      RemoteGroupID := remoteGroupIDSelf },
    { Description := "BGP (calico)"
      Direction := "ingress"
      EtherType := "IPv4"
      PortRangeMin := 179
      PortRangeMax := 179
      Protocol := "tcp"
      RemoteGroupID := secControlPlaneGroupID },
    { Description := "IP-in-IP (calico)"
      Direction := "ingress"
      EtherType := "IPv4"
      Protocol := "ipip"
      RemoteGroupID := remoteGroupIDSelf },
    { Description := "IP-in-IP (calico)"
      Direction := "ingress"
      EtherType := "IPv4"
      Protocol := "ipip"
      RemoteGroupID := secControlPlaneGroupID } ]

/-- Translated from Go `getSGWorkerCilium`: permit traffic for cilium. -/
def getSGWorkerCilium (remoteGroupIDSelf secControlPlaneGroupID : String) :
    List SecurityGroupRule :=
  [ { Description := "HealthChecks (cilium)"
      Direction := "ingress"
      EtherType := "IPv4"
      PortRangeMin := 4240
      PortRangeMax := 4240
      Protocol := "tcp"
      RemoteGroupID := remoteGroupIDSelf },
    { Description := "HealthChecks (cilium)"
      Direction := "ingress"
      EtherType := "IPv4"
      PortRangeMin := 4240
      PortRangeMax := 4240
      Protocol := "tcp"
      RemoteGroupID := secControlPlaneGroupID },
    { Description := "VXLAN (cilium)"
      Direction := "ingress"
      EtherType := "IPv4"
      PortRangeMin := 8472
      PortRangeMax := 8472
      Protocol := "udp"
      RemoteGroupID := remoteGroupIDSelf },
    { Description := "VXLAN (cilium)"
      Direction := "ingress"
      EtherType := "IPv4"
      PortRangeMin := 8472
      PortRangeMax := 8472
      Protocol := "udp"
      RemoteGroupID := secControlPlaneGroupID },
    { Description := "ICMP HealthCheck (cilium)"
      Direction := "ingress"
      EtherType := "IPv4"
      PortRangeMin := 8
      PortRangeMax := 0
      Protocol := "icmp"
      RemoteGroupID := remoteGroupIDSelf },
    { Description := "ICMP HealthCheck (cilium)"
      Direction := "ingress"
      EtherType := "IPv4"
      PortRangeMin := 8
      PortRangeMax := 0
      Protocol := "icmp"
      RemoteGroupID := secControlPlaneGroupID } ]

/-- Translated from Go `GetSGControlPlaneSSH`: permit traffic for ssh
control plane. -/
def GetSGControlPlaneSSH (secBastionGroupID : String) :
    List SecurityGroupRule :=
  [ { Description := "SSH"
      Direction := "ingress"
      EtherType := "IPv4"
      PortRangeMin := 22
      PortRangeMax := 22
      Protocol := "tcp"
      RemoteGroupID := secBastionGroupID } ]

/-- Translated from Go `GetSGWorkerSSH`: permit traffic for ssh worker. -/
def GetSGWorkerSSH (secBastionGroupID : String) : List SecurityGroupRule :=
  [ { Description := "SSH"
      Direction := "ingress"
      EtherType := "IPv4"
      PortRangeMin := 22
      PortRangeMax := 22
      Protocol := "tcp"
      RemoteGroupID := secBastionGroupID } ]

/-- Translated from Go `GetSGControlPlaneHTTPS`: allow all traffic,
including from outside the cluster, to access the API. -/
def GetSGControlPlaneHTTPS : List SecurityGroupRule :=
  [ { Description := "Kubernetes API"
      Direction := "ingress"
      EtherType := "IPv4"
      PortRangeMin := 6443
      PortRangeMax := 6443
      Protocol := "tcp" } ]

/-- Translated from Go `GetSGWorkerNodePort`: allow all traffic, including
from outside the cluster, to access node port services. -/
def GetSGWorkerNodePort : List SecurityGroupRule :=
  [ { Description := "Node Port Services"
      Direction := "ingress"
      EtherType := "IPv4"
      PortRangeMin := 30000
      PortRangeMax := 32767
      Protocol := "tcp" } ]

/-- Translated from Go `GetSGControlPlaneAllowAll`: permit all ingress from
the cluster security groups. -/
def GetSGControlPlaneAllowAll (remoteGroupIDSelf secWorkerGroupID : String) :
    List SecurityGroupRule :=
  [ { Description := "In-cluster Ingress"
      Direction := "ingress"
      EtherType := "IPv4"
      PortRangeMin := 0
      PortRangeMax := 0
      Protocol := ""
      RemoteGroupID := remoteGroupIDSelf },
    { Description := "In-cluster Ingress"
      Direction := "ingress"
      EtherType := "IPv4"
      PortRangeMin := 0
      PortRangeMax := 0
      Protocol := ""
      RemoteGroupID := secWorkerGroupID } ]

/-- Translated from Go `GetSGWorkerAllowAll`: permit all ingress from the
cluster security groups. -/
def GetSGWorkerAllowAll (remoteGroupIDSelf secControlPlaneGroupID : String) :
    List SecurityGroupRule :=
  [ { Description := "In-cluster Ingress"
      Direction := "ingress"
      EtherType := "IPv4"
      PortRangeMin := 0
      PortRangeMax := 0
      Protocol := ""
      RemoteGroupID := remoteGroupIDSelf },
    { Description := "In-cluster Ingress"
      Direction := "ingress"
      EtherType := "IPv4"
      PortRangeMin := 0
      PortRangeMax := 0
      Protocol := ""
      RemoteGroupID := secControlPlaneGroupID } ]

/-- Translated from Go `GetSGControlPlaneGeneral`: the Go function starts
from an empty slice and appends the common, calico and cilium control-plane
rule groups in that order. -/
def GetSGControlPlaneGeneral (remoteGroupIDSelf secWorkerGroupID : String) :
    List SecurityGroupRule :=
  ([] : List SecurityGroupRule) ++
    getSGControlPlaneCommon remoteGroupIDSelf secWorkerGroupID ++
    getSGControlPlaneCalico remoteGroupIDSelf secWorkerGroupID ++
    getSGControlPlaneCilium remoteGroupIDSelf secWorkerGroupID

/-- Translated from Go `GetSGWorkerGeneral`: the Go function starts from an
empty slice and appends the common, calico and cilium worker rule groups in
that order. -/
def GetSGWorkerGeneral (remoteGroupIDSelf secControlPlaneGroupID : String) :
    List SecurityGroupRule :=
  ([] : List SecurityGroupRule) ++
    getSGWorkerCommon remoteGroupIDSelf secControlPlaneGroupID ++
    getSGWorkerCalico remoteGroupIDSelf secControlPlaneGroupID ++
    getSGWorkerCilium remoteGroupIDSelf secControlPlaneGroupID

/-- Translated from the Go test struct `networkAddress` of the `compute`
package: an address entry as produced by OpenStack for one network. -/
structure networkAddress where
  Version : Int
  Addr : String
  type : String
  MacAddr : String
deriving DecidableEq, Repr

/-- Node-address type of the Kubernetes core API.  The spec names only
`InternalIP` (for "fixed" entries) and `ExternalIP` (for "floating"
entries); it states that entries with any other type tag still appear in
the full flattened list but does not name the node-address type they are
given, so the model carries the raw tag for them. -/
inductive NodeAddressType where
  | internalIP : NodeAddressType
  | externalIP : NodeAddressType
  | other : String → NodeAddressType
deriving DecidableEq, Repr

/-- Counterpart of the Kubernetes `corev1.NodeAddress` struct. -/
structure NodeAddress where
  type : NodeAddressType
  Address : String
deriving DecidableEq, Repr

/-- Modelled from the spec: `InstanceNetworkStatus` is missing from the
provided sources (only its tests are present); the spec describes it as a
read-only view over a raw address map keyed by network name.  A Go map has
no canonical enumeration order (the spec flags this), so the map is
represented as an association list whose list order stands for the
enumeration order. -/
structure InstanceNetworkStatus where
  addresses : List (String × List networkAddress)
deriving DecidableEq, Repr

/-- Modelled from the spec: first-match lookup of a network name in the
address map, the association-list counterpart of a Go map access. -/
def lookupNet (name : String) :
    List (String × List networkAddress) → Option (List networkAddress)
  | [] => none
  | (n, l) :: rest => if n = name then some l else lookupNet name rest

/-- Modelled from the spec: scan an address list in original order and
return the address of the first IPv4 entry whose type tag is `t`; return
the empty string when there is none. -/
def firstAddrOfType (t : String) : List networkAddress → String
  | [] => ""
  | a :: rest =>
      if a.Version = 4 ∧ a.type = t then a.Addr else firstAddrOfType t rest

/-- Modelled from the spec: `IP(name)` returns the first IPv4 entry tagged
"fixed" of the named network, and the empty string when the network name
is absent. -/
def InstanceNetworkStatus.IP (ns : InstanceNetworkStatus) (name : String) :
    String :=
  match lookupNet name ns.addresses with
  | none => ""
  | some l => firstAddrOfType "fixed" l

/-- Modelled from the spec: `FloatingIP(name)` returns the first IPv4 entry
tagged "floating" of the named network, and the empty string when the
network name is absent. -/
def InstanceNetworkStatus.FloatingIP (ns : InstanceNetworkStatus)
    (name : String) : String :=
  match lookupNet name ns.addresses with
  | none => ""
  | some l => firstAddrOfType "floating" l

/-- Modelled from the spec: the node-address type assigned to an address
entry by its type tag — "fixed" maps to `InternalIP`, "floating" to
`ExternalIP`, any other tag is kept (unrecognized tags are not excluded
from the full list, per the spec). -/
def nodeAddressTypeOfTag (t : String) : NodeAddressType :=
  if t = "fixed" then NodeAddressType.internalIP
  else if t = "floating" then NodeAddressType.externalIP
  else NodeAddressType.other t

/-- Modelled from the spec: the node addresses contributed by one network's
address list — IPv6 entries are excluded from the mapped output, IPv4
entries are kept in original order. -/
def nodeAddressesOfList : List networkAddress → List NodeAddress
  | [] => []
  | a :: rest =>
      if a.Version = 4 then
        { type := nodeAddressTypeOfTag a.type, Address := a.Addr } ::
          nodeAddressesOfList rest
      else nodeAddressesOfList rest

/-- Modelled from the spec: the flattened node-address lists of a sequence
of networks, in enumeration order. -/
def addressesOfMap : List (String × List networkAddress) → List NodeAddress
  | [] => []
  | (_, l) :: rest => nodeAddressesOfList l ++ addressesOfMap rest

/-- Modelled from the spec: `Addresses()` returns the full flattened
node-address list of all networks, in enumeration order of the address
map. -/
def InstanceNetworkStatus.Addresses (ns : InstanceNetworkStatus) :
    List NodeAddress :=
  addressesOfMap ns.addresses

/-- Availability zone as returned by the cloud SDK.  Only its identity
matters to the wrapper, which passes the list through untouched. -/
structure AvailabilityZone where
  ZoneName : String
deriving DecidableEq, Repr

/-- Translated from Go `GetAvailabilityZones` in
`pkg/cloud/services/compute/availabilityzone.go`: on SDK success return the
list unchanged, on SDK failure return a nil list (here `none`) and the SDK
error wrapped as by
`fmt.Errorf("error extracting availability zone list: %v", err)`.  The Go
pair (list, error) is modelled as a pair of options. -/
def GetAvailabilityZones (sdk : Except String (List AvailabilityZone)) :
    Option (List AvailabilityZone) × Option String :=
  match sdk with
  | Except.error e =>
      (none, some ("error extracting availability zone list: " ++ e))
  | Except.ok l => (some l, none)

/-- Translated from the Go test constant `macAddr1`. -/
def macAddr1 : String := "d1:b2:18:25:70:ab"

/-- Translated from the Go test constant `macAddr2`. -/
def macAddr2 : String := "d1:b2:18:25:70:ac"

/-- Translated from the Go test constant `macAddr3`. -/
def macAddr3 : String := "d1:b2:18:25:70:ad"

/-- Translated from the Go test constant `macAddr4`. -/
def macAddr4 : String := "d1:b2:18:25:70:ae"

/-- Two rule slices are equal element for element and in the same order. -/
def sameRules (xs ys : List SecurityGroupRule) : Prop :=
  xs.length = ys.length ∧
    ∀ i (h1 : i < xs.length) (h2 : i < ys.length),
      xs.get ⟨i, h1⟩ = ys.get ⟨i, h2⟩

/-- Every rule in the slice is an ingress rule over IPv4. -/
def ingressIPv4 (rules : List SecurityGroupRule) : Prop :=
  ∀ r ∈ rules, r.Direction = "ingress" ∧ r.EtherType = "IPv4"

/-- Restriction of an address map to the entries whose type tag the typed
accessors recognize ("fixed" or "floating").  Used to state that entries
with any other tag do not influence `IP` and `FloatingIP`. -/
def keepKnownTypes (m : List (String × List networkAddress)) :
    List (String × List networkAddress) :=
  m.map (fun p =>
    (p.1, p.2.filter (fun a => a.type == "fixed" || a.type == "floating")))

/-- Address map of the "Ignore unknown address type" test case of
`TestInstanceNetworkStatus`, restricted to its single network. -/
def unknownTypeList : List networkAddress :=
  [ ⟨4, "192.168.0.2", "not-valid", macAddr1⟩,
    ⟨4, "192.168.0.3", "unknown", macAddr2⟩,
    ⟨4, "10.0.0.1", "floating", macAddr3⟩,
    ⟨4, "192.168.0.1", "fixed", macAddr4⟩ ]

/-- Address map of the "Ignore unknown address type" test case of
`TestInstanceNetworkStatus`. -/
def unknownTypeMap : List (String × List networkAddress) :=
  [("primary", unknownTypeList)]

/-- Address map whose entries are all IPv6, taken from the IPv6 entries of
the "Ignore IPv6" test case of `TestNetworkStatus_Addresses`. -/
def allIPv6Map : List (String × List networkAddress) :=
  [("primary",
    [ ⟨6, "fe80::f816:3eff:fe56:3174", "fixed", macAddr1⟩,
      ⟨6, "fe80::f816:3eff:fe56:3175", "floating", macAddr2⟩ ])]

/-- Address map with a "primary" network enumerated before an extra
network; exhibits an enumeration order on which the extra network's
address does not come first in the flattened list. -/
def primaryFirstMap : List (String × List networkAddress) :=
  [ ("primary", [⟨4, "192.168.0.1", "fixed", macAddr1⟩]),
    ("extraNet1", [⟨4, "192.168.1.1", "fixed", macAddr3⟩]) ]

/-- Single-network address list used to instantiate permutation
statements. -/
def permListA : List networkAddress :=
  [⟨4, "192.168.0.1", "fixed", macAddr1⟩]

/-- Second single-network address list used to instantiate permutation
statements. -/
def permListB : List networkAddress :=
  [⟨4, "192.168.1.1", "fixed", macAddr3⟩]

/-- Sample ICMP rule of the cilium generators, instantiated at the group
identifiers "x" and "y". -/
def ciliumIcmpSample : SecurityGroupRule :=
  { Description := "ICMP HealthCheck (cilium)"
    Direction := "ingress"
    EtherType := "IPv4"
    PortRangeMin := 8
    PortRangeMax := 0
    Protocol := "icmp"
    RemoteGroupID := "x" }

/-- Sample etcd rule of the control-plane common group, instantiated at the
group identifiers "x" and "y". -/
def etcdSample : SecurityGroupRule :=
  { Description := "Etcd"
    Direction := "ingress"
    EtherType := "IPv4"
    PortRangeMin := 2379
    PortRangeMax := 2380
    Protocol := "tcp"
    RemoteGroupID := "x" }

/-- Model validation: "Single network single address" test case of
`TestInstanceNetworkStatus`. -/
theorem checkSingleNetworkSingleAddress :
    InstanceNetworkStatus.IP
        ⟨[("primary", [⟨4, "192.168.0.1", "fixed", macAddr1⟩])]⟩ "primary" =
      "192.168.0.1" ∧
    InstanceNetworkStatus.FloatingIP
        ⟨[("primary", [⟨4, "192.168.0.1", "fixed", macAddr1⟩])]⟩ "primary" =
      "" := by
  constructor <;> rfl

/-- Model validation: "Ignore IPv6" test case of
`TestInstanceNetworkStatus`. -/
theorem checkIgnoreIPv6Typed :
    InstanceNetworkStatus.IP
        ⟨[("primary",
          [ ⟨6, "fe80::f816:3eff:fe56:3174", "fixed", macAddr1⟩,
            ⟨6, "fe80::f816:3eff:fe56:3175", "floating", macAddr2⟩,
            ⟨4, "10.0.0.1", "floating", macAddr3⟩,
            ⟨4, "192.168.0.1", "fixed", macAddr4⟩ ])]⟩ "primary" =
      "192.168.0.1" ∧
    InstanceNetworkStatus.FloatingIP
        ⟨[("primary",
          [ ⟨6, "fe80::f816:3eff:fe56:3174", "fixed", macAddr1⟩,
            ⟨6, "fe80::f816:3eff:fe56:3175", "floating", macAddr2⟩,
            ⟨4, "10.0.0.1", "floating", macAddr3⟩,
            ⟨4, "192.168.0.1", "fixed", macAddr4⟩ ])]⟩ "primary" =
      "10.0.0.1" := by
  constructor <;> rfl

/-- Model validation: "First IP" test case of `TestInstanceNetworkStatus` —
the first fixed and first floating entries win. -/
theorem checkFirstIPWins :
    InstanceNetworkStatus.IP
        ⟨[("primary",
          [ ⟨4, "192.168.0.1", "fixed", macAddr1⟩,
            ⟨4, "10.0.0.1", "floating", macAddr2⟩,
            ⟨4, "192.168.0.2", "fixed", macAddr3⟩,
            ⟨4, "10.0.0.2", "floating", macAddr4⟩ ])]⟩ "primary" =
      "192.168.0.1" ∧
    InstanceNetworkStatus.FloatingIP
        ⟨[("primary",
          [ ⟨4, "192.168.0.1", "fixed", macAddr1⟩,
            ⟨4, "10.0.0.1", "floating", macAddr2⟩,
            ⟨4, "192.168.0.2", "fixed", macAddr3⟩,
            ⟨4, "10.0.0.2", "floating", macAddr4⟩ ])]⟩ "primary" =
      "10.0.0.1" := by
  constructor <;> rfl

/-- Model validation: "Fixed and floating addresses" test case of
`TestNetworkStatus_Addresses`. -/
theorem checkAddressesFixedFloating :
    InstanceNetworkStatus.Addresses
        ⟨[("primary",
          [ ⟨4, "192.168.0.1", "fixed", macAddr1⟩,
            ⟨4, "10.0.0.1", "floating", macAddr2⟩ ])]⟩ =
      [ ⟨NodeAddressType.internalIP, "192.168.0.1"⟩,
        ⟨NodeAddressType.externalIP, "10.0.0.1"⟩ ] := by
  rfl

/-- Model validation: "Multiple networks" test case of
`TestNetworkStatus_Addresses`, under the enumeration order that lists the
extra networks before "primary" (the order the test expects). -/
theorem checkAddressesMultipleNetworks :
    InstanceNetworkStatus.Addresses
        ⟨[ ("extraNet1", [⟨4, "192.168.1.1", "fixed", macAddr3⟩]),
           ("extraNet2", [⟨4, "192.168.2.1", "fixed", macAddr4⟩]),
           ("primary",
            [ ⟨4, "192.168.0.1", "fixed", macAddr1⟩,
              ⟨4, "10.0.0.1", "floating", macAddr2⟩ ]) ]⟩ =
      [ ⟨NodeAddressType.internalIP, "192.168.1.1"⟩,
        ⟨NodeAddressType.internalIP, "192.168.2.1"⟩,
        ⟨NodeAddressType.internalIP, "192.168.0.1"⟩,
        ⟨NodeAddressType.externalIP, "10.0.0.1"⟩ ] := by
  rfl

/-- C5: for every pair of security-group identifiers, the control-plane
general rule set is exactly the common control-plane group (etcd, kubelet)
followed by the Calico and Cilium control-plane groups, and the worker
general rule set is exactly the common worker group followed by the Calico
and Cilium worker groups; both generators take no input but the two
identifiers. -/
theorem general_rule_sets_are_concatenations :
    ∀ remoteGroupIDSelf secPeerGroupID : String,
      GetSGControlPlaneGeneral remoteGroupIDSelf secPeerGroupID =
        getSGControlPlaneCommon remoteGroupIDSelf secPeerGroupID ++
          getSGControlPlaneCalico remoteGroupIDSelf secPeerGroupID ++
          getSGControlPlaneCilium remoteGroupIDSelf secPeerGroupID ∧
      GetSGWorkerGeneral remoteGroupIDSelf secPeerGroupID =
        getSGWorkerCommon remoteGroupIDSelf secPeerGroupID ++
          getSGWorkerCalico remoteGroupIDSelf secPeerGroupID ++
          getSGWorkerCilium remoteGroupIDSelf secPeerGroupID :=
  fun _ _ => ⟨rfl, rfl⟩

/-- C9: the control-plane and worker CNI rule generators coincide as
functions of the two group identifiers, and the control-plane and worker
SSH generators coincide as functions of the bastion group identifier. -/
theorem cni_and_ssh_generators_coincide :
    ∀ a b x : String,
      getSGControlPlaneCalico a b = getSGWorkerCalico a b ∧
      getSGControlPlaneCilium a b = getSGWorkerCilium a b ∧
      GetSGControlPlaneSSH x = GetSGWorkerSSH x :=
  fun _ _ _ => ⟨rfl, rfl, rfl⟩

/-- Lists that are equal are equal element for element and in the same
order. -/
theorem sameRules_of_eq {xs ys : List SecurityGroupRule} (h : xs = ys) :
    sameRules xs ys := by
  subst h
  exact ⟨rfl, fun i h1 h2 => rfl⟩

/-- C6: every rule-set generator is deterministic — two calls with
identical arguments return rule slices that are equal element for element
and in the same order. -/
theorem rule_generators_deterministic :
    ∀ a b a' b' : String, a = a' → b = b' →
      sameRules (GetSGControlPlaneGeneral a b) (GetSGControlPlaneGeneral a' b') ∧
      sameRules (GetSGWorkerGeneral a b) (GetSGWorkerGeneral a' b') ∧
      sameRules (GetSGControlPlaneSSH a) (GetSGControlPlaneSSH a') ∧
      sameRules (GetSGWorkerSSH a) (GetSGWorkerSSH a') ∧
      sameRules GetSGControlPlaneHTTPS GetSGControlPlaneHTTPS ∧
      sameRules GetSGWorkerNodePort GetSGWorkerNodePort ∧
      sameRules (GetSGControlPlaneAllowAll a b) (GetSGControlPlaneAllowAll a' b') ∧
      sameRules (GetSGWorkerAllowAll a b) (GetSGWorkerAllowAll a' b') := by
  rintro a b a' b' rfl rfl
  exact ⟨sameRules_of_eq rfl, sameRules_of_eq rfl, sameRules_of_eq rfl,
    sameRules_of_eq rfl, sameRules_of_eq rfl, sameRules_of_eq rfl,
    sameRules_of_eq rfl, sameRules_of_eq rfl⟩

/-- Witness for C6: instantiation at the identifiers "x" and "y". -/
theorem rule_generators_deterministic_witness :
    ("x" = "x") ∧ ("y" = "y") ∧
      sameRules (GetSGControlPlaneGeneral "x" "y")
        (GetSGControlPlaneGeneral "x" "y") :=
  ⟨rfl, rfl, (rule_generators_deterministic "x" "y" "x" "y" rfl rfl).1⟩

/-- C8: for all string arguments, every rule produced by every
security-group rule generator has Direction "ingress" and EtherType
"IPv4", while the static `defaultRules` table does contain egress rules,
among them an IPv6 one. -/
theorem generators_ingress_ipv4_only :
    (∀ a b : String,
      ingressIPv4 (getSGControlPlaneCommon a b) ∧
      ingressIPv4 (getSGControlPlaneCalico a b) ∧
      ingressIPv4 (getSGControlPlaneCilium a b) ∧
      ingressIPv4 (getSGWorkerCommon a b) ∧
      ingressIPv4 (getSGWorkerCalico a b) ∧
      ingressIPv4 (getSGWorkerCilium a b) ∧
      ingressIPv4 (GetSGControlPlaneAllowAll a b) ∧
      ingressIPv4 (GetSGWorkerAllowAll a b) ∧
      ingressIPv4 (GetSGControlPlaneGeneral a b) ∧
      ingressIPv4 (GetSGWorkerGeneral a b)) ∧
    (∀ x : String,
      ingressIPv4 (GetSGControlPlaneSSH x) ∧
      ingressIPv4 (GetSGWorkerSSH x)) ∧
    ingressIPv4 GetSGControlPlaneHTTPS ∧
    ingressIPv4 GetSGWorkerNodePort ∧
    (∃ r ∈ defaultRules, r.Direction = "egress" ∧ r.EtherType = "IPv4") ∧
    (∃ r ∈ defaultRules, r.Direction = "egress" ∧ r.EtherType = "IPv6") := by
  refine ⟨fun a b => ⟨?_, ?_, ?_, ?_, ?_, ?_, ?_, ?_, ?_, ?_⟩,
    fun x => ⟨?_, ?_⟩, ?_, ?_,
    ⟨{ Direction := "egress", Description := "Full open",
       EtherType := "IPv4" }, by decide, rfl, rfl⟩,
    ⟨{ Direction := "egress", Description := "Full open",
       EtherType := "IPv6" }, by decide, rfl, rfl⟩⟩ <;>
  simp [ingressIPv4, getSGControlPlaneCommon, getSGControlPlaneCalico,
    getSGControlPlaneCilium, getSGWorkerCommon, getSGWorkerCalico,
    getSGWorkerCilium, GetSGControlPlaneAllowAll, GetSGWorkerAllowAll,
    GetSGControlPlaneGeneral, GetSGWorkerGeneral, GetSGControlPlaneSSH,
    GetSGWorkerSSH, GetSGControlPlaneHTTPS, GetSGWorkerNodePort,
    List.forall_mem_append, List.forall_mem_cons]

/-- Witness for C8: the etcd rule of the control-plane common group at the
identifiers "x" and "y" is an ingress rule over IPv4. -/
theorem generators_ingress_ipv4_only_witness :
    etcdSample ∈ getSGControlPlaneCommon "x" "y" ∧
    (etcdSample.Direction = "ingress" ∧ etcdSample.EtherType = "IPv4") :=
  ⟨by decide,
    (generators_ingress_ipv4_only.1 "x" "y").1 etcdSample (by decide)⟩

/-- C10: every rule of the Cilium generators with Protocol "icmp" has
PortRangeMin 8 and PortRangeMax 0 — so PortRangeMax < PortRangeMin, the
fields carrying the ICMP type and code rather than a port interval — while
every rule of those generators with Protocol "tcp" or "udp" has
PortRangeMin equal to PortRangeMax. -/
theorem cilium_port_range_fields :
    ∀ a b : String, ∀ r : SecurityGroupRule,
      (r ∈ getSGControlPlaneCilium a b ∨ r ∈ getSGWorkerCilium a b) →
      (r.Protocol = "icmp" →
        r.PortRangeMin = 8 ∧ r.PortRangeMax = 0 ∧
          r.PortRangeMax < r.PortRangeMin) ∧
      ((r.Protocol = "tcp" ∨ r.Protocol = "udp") →
        r.PortRangeMin = r.PortRangeMax) := by
  intro a b r hr
  rcases hr with hr | hr <;>
    (simp only [getSGControlPlaneCilium, getSGWorkerCilium, List.mem_cons,
      List.not_mem_nil, or_false] at hr
     rcases hr with rfl | rfl | rfl | rfl | rfl | rfl <;>
       refine ⟨fun h => ?_, fun h => ?_⟩ <;> simp_all)

/-- Witness for C10: the ICMP health-check rule of the control-plane Cilium
generator at the identifiers "x" and "y". -/
theorem cilium_port_range_fields_witness :
    (ciliumIcmpSample ∈ getSGControlPlaneCilium "x" "y" ∨
      ciliumIcmpSample ∈ getSGWorkerCilium "x" "y") ∧
    (ciliumIcmpSample.Protocol = "icmp") ∧
    (ciliumIcmpSample.PortRangeMin = 8 ∧ ciliumIcmpSample.PortRangeMax = 0 ∧
      ciliumIcmpSample.PortRangeMax < ciliumIcmpSample.PortRangeMin) :=
  ⟨Or.inl (by decide), rfl,
    (cilium_port_range_fields "x" "y" ciliumIcmpSample
      (Or.inl (by decide))).1 rfl⟩

/-- C7: `GetAvailabilityZones` passes a successful SDK zone list through
unchanged, and on SDK failure returns no list together with the SDK error
wrapped with the context "error extracting availability zone list"; no
other outcome exists. -/
theorem get_availability_zones_pass_through :
    ∀ sdk : Except String (List AvailabilityZone),
      (∀ l, sdk = Except.ok l → GetAvailabilityZones sdk = (some l, none)) ∧
      (∀ e, sdk = Except.error e →
        GetAvailabilityZones sdk =
          (none, some ("error extracting availability zone list: " ++ e))) := by
  intro sdk
  constructor <;> rintro x rfl <;> rfl

/-- Witness for C7: a one-zone success and a failing SDK call. -/
theorem get_availability_zones_pass_through_witness :
    ((Except.ok [⟨"nova"⟩] : Except String (List AvailabilityZone)) =
      Except.ok [⟨"nova"⟩]) ∧
    GetAvailabilityZones (Except.ok [⟨"nova"⟩]) = (some [⟨"nova"⟩], none) ∧
    ((Except.error "boom" : Except String (List AvailabilityZone)) =
      Except.error "boom") ∧
    GetAvailabilityZones (Except.error "boom") =
      (none, some ("error extracting availability zone list: " ++ "boom")) :=
  ⟨rfl,
    (get_availability_zones_pass_through (Except.ok [⟨"nova"⟩])).1
      [⟨"nova"⟩] rfl,
    rfl,
    (get_availability_zones_pass_through (Except.error "boom")).2
      "boom" rfl⟩

/-- The scan `firstAddrOfType` returns the address of the first entry
satisfying "IPv4 and tagged `t`", in `List.find?` form. -/
theorem firstAddrOfType_eq_find (t : String) (l : List networkAddress) :
    firstAddrOfType t l =
      match l.find? (fun a => a.Version == 4 && a.type == t) with
      | none => ""
      | some a => a.Addr := by
  induction l with
  | nil => rfl
  | cons a rest ih =>
      by_cases h : a.Version = 4 ∧ a.type = t
      · have hb : (a.Version == 4 && a.type == t) = true := by
          simp [h.1, h.2]
        rw [List.find?_cons_of_pos rest hb]
        simp [firstAddrOfType, if_pos h]
      · have hb : ¬((a.Version == 4 && a.type == t) = true) := by
          simpa [Bool.and_eq_true, beq_iff_eq] using h
        rw [List.find?_cons_of_neg rest hb]
        simpa [firstAddrOfType, if_neg h] using ih

/-- C1: for every address map and network name, `IP(name)` is the address
of the first IPv4 entry tagged "fixed" of that network in original list
order, `FloatingIP(name)` is the address of the first IPv4 entry tagged
"floating", entries of any other type tag or IP version are skipped (they
never satisfy the selecting predicate), and an absent network name makes
both accessors return the empty string. -/
theorem typed_accessors_first_ipv4_match :
    ∀ (ns : InstanceNetworkStatus) (name : String),
      (ns.IP name =
        match lookupNet name ns.addresses with
        | none => ""
        | some l =>
            match l.find? (fun a => a.Version == 4 && a.type == "fixed") with
            | none => ""
            | some a => a.Addr) ∧
      (ns.FloatingIP name =
        match lookupNet name ns.addresses with
        | none => ""
        | some l =>
            match l.find? (fun a => a.Version == 4 && a.type == "floating") with
            | none => ""
            | some a => a.Addr) ∧
      (lookupNet name ns.addresses = none →
        ns.IP name = "" ∧ ns.FloatingIP name = "") := by
  intro ns name
  refine ⟨?_, ?_, fun h => ?_⟩
  · simp only [InstanceNetworkStatus.IP]
    cases lookupNet name ns.addresses with
    | none => rfl
    | some l => exact firstAddrOfType_eq_find "fixed" l
  · simp only [InstanceNetworkStatus.FloatingIP]
    cases lookupNet name ns.addresses with
    | none => rfl
    | some l => exact firstAddrOfType_eq_find "floating" l
  · constructor <;>
      simp [InstanceNetworkStatus.IP, InstanceNetworkStatus.FloatingIP, h]

/-- Witness for C1: the "Network not found" test case of
`TestInstanceNetworkStatus` — looking up "primary" in a map holding only
"extraNet1" fails and both accessors return the empty string. -/
theorem typed_accessors_first_ipv4_match_witness :
    lookupNet "primary"
        [("extraNet1",
          [ ⟨4, "192.168.1.1", "fixed", macAddr1⟩,
            ⟨4, "10.0.1.1", "floating", macAddr2⟩ ])] = none ∧
    (InstanceNetworkStatus.IP
        ⟨[("extraNet1",
          [ ⟨4, "192.168.1.1", "fixed", macAddr1⟩,
            ⟨4, "10.0.1.1", "floating", macAddr2⟩ ])]⟩ "primary" = "" ∧
      InstanceNetworkStatus.FloatingIP
        ⟨[("extraNet1",
          [ ⟨4, "192.168.1.1", "fixed", macAddr1⟩,
            ⟨4, "10.0.1.1", "floating", macAddr2⟩ ])]⟩ "primary" = "") :=
  ⟨rfl,
    (typed_accessors_first_ipv4_match
      ⟨[("extraNet1",
        [ ⟨4, "192.168.1.1", "fixed", macAddr1⟩,
          ⟨4, "10.0.1.1", "floating", macAddr2⟩ ])]⟩ "primary").2.2 rfl⟩

/-- An address list whose entries are all IPv6 contributes no node
addresses. -/
theorem nodeAddressesOfList_eq_nil (l : List networkAddress)
    (h : ∀ a ∈ l, a.Version = 6) : nodeAddressesOfList l = [] := by
  induction l with
  | nil => rfl
  | cons a rest ih =>
      have h6 : a.Version = 6 := h a (List.mem_cons_self a rest)
      have h4 : ¬(a.Version = 4) := by simp [h6]
      simpa [nodeAddressesOfList, if_neg h4] using
        ih (fun x hx => h x (List.mem_cons_of_mem a hx))

/-- An address map whose entries are all IPv6 flattens to no node
addresses. -/
theorem addressesOfMap_eq_nil :
    ∀ m : List (String × List networkAddress),
      (∀ p ∈ m, ∀ a ∈ p.2, a.Version = 6) → addressesOfMap m = []
  | [], _ => rfl
  | (n, l) :: rest, h => by
      have hl : nodeAddressesOfList l = [] :=
        nodeAddressesOfList_eq_nil l (h (n, l) (List.mem_cons_self _ rest))
      simpa [addressesOfMap, hl] using
        addressesOfMap_eq_nil rest (fun q hq => h q (List.mem_cons_of_mem _ hq))

/-- C2: for every address map in which every entry of every network has IP
version 6, the node-address list produced by `Addresses()` is empty. -/
theorem addresses_empty_of_all_ipv6 :
    ∀ ns : InstanceNetworkStatus,
      (∀ p ∈ ns.addresses, ∀ a ∈ p.2, a.Version = 6) →
      ns.Addresses = [] := by
  intro ns h
  exact addressesOfMap_eq_nil ns.addresses h

/-- Witness for C2: the IPv6 entries of the "Ignore IPv6" test case alone
produce an empty node-address list. -/
theorem addresses_empty_of_all_ipv6_witness :
    (∀ p ∈ (InstanceNetworkStatus.mk allIPv6Map).addresses,
      ∀ a ∈ p.2, a.Version = 6) ∧
    (InstanceNetworkStatus.mk allIPv6Map).Addresses = [] :=
  ⟨by decide, addresses_empty_of_all_ipv6 ⟨allIPv6Map⟩ (by decide)⟩

/-- Looking up a network in the type-restricted map finds the filtered
version of the list found in the original map. -/
theorem lookupNet_keepKnownTypes (name : String) :
    ∀ m, lookupNet name (keepKnownTypes m) =
      Option.map
        (fun l => l.filter (fun a => a.type == "fixed" || a.type == "floating"))
        (lookupNet name m)
  | [] => rfl
  | (n, l) :: rest => by
      by_cases hn : n = name
      · simp [keepKnownTypes, lookupNet, hn]
      · simpa [keepKnownTypes, lookupNet, hn] using
          lookupNet_keepKnownTypes name rest

/-- Dropping the entries whose tag is neither "fixed" nor "floating" does
not change the first-match scan for a recognized tag `t`. -/
theorem firstAddrOfType_filter (t : String)
    (ht : t = "fixed" ∨ t = "floating") :
    ∀ l : List networkAddress,
      firstAddrOfType t
          (l.filter (fun a => a.type == "fixed" || a.type == "floating")) =
        firstAddrOfType t l
  | [] => rfl
  | a :: rest => by
      by_cases hk : (a.type == "fixed" || a.type == "floating") = true
      · rw [List.filter_cons_of_pos
          (p := fun x : networkAddress =>
            x.type == "fixed" || x.type == "floating") hk]
        simp only [firstAddrOfType]
        rw [firstAddrOfType_filter t ht rest]
      · have ha : ¬(a.Version = 4 ∧ a.type = t) := by
          rcases ht with rfl | rfl <;> (intro hc; apply hk; simp [hc.2])
        rw [List.filter_cons_of_neg
          (p := fun x : networkAddress =>
            x.type == "fixed" || x.type == "floating") hk]
        simp only [firstAddrOfType, if_neg ha]
        exact firstAddrOfType_filter t ht rest

/-- Every IPv4 entry of an address list contributes its node address to
the list's flattened output, whatever its type tag. -/
theorem mem_nodeAddressesOfList :
    ∀ (l : List networkAddress) (a : networkAddress), a ∈ l →
      a.Version = 4 →
      ({ type := nodeAddressTypeOfTag a.type, Address := a.Addr } :
        NodeAddress) ∈ nodeAddressesOfList l
  | [], a, ha, _ => absurd ha (List.not_mem_nil a)
  | b :: rest, a, ha, h4 => by
      rcases List.mem_cons.1 ha with rfl | ha'
      · simp [nodeAddressesOfList, h4]
      · by_cases hb : b.Version = 4
        · simp only [nodeAddressesOfList, if_pos hb]
          exact List.mem_cons_of_mem _
            (mem_nodeAddressesOfList rest a ha' h4)
        · simp only [nodeAddressesOfList, if_neg hb]
          exact mem_nodeAddressesOfList rest a ha' h4

/-- The flattened output of the network found under `name` is contained in
the flattened output of the whole map. -/
theorem mem_addressesOfMap :
    ∀ (m : List (String × List networkAddress)) (name : String)
      (l : List networkAddress), lookupNet name m = some l →
      ∀ x ∈ nodeAddressesOfList l, x ∈ addressesOfMap m
  | [], _, _, h => by simp [lookupNet] at h
  | (n, l') :: rest, name, l, h => by
      intro x hx
      by_cases hn : n = name
      · have hl : l' = l := by simpa [lookupNet, hn] using h
        subst hl
        simp only [addressesOfMap]
        exact List.mem_append_left _ hx
      · have h' : lookupNet name rest = some l := by
          simpa [lookupNet, hn] using h
        simp only [addressesOfMap]
        exact List.mem_append_right _
          (mem_addressesOfMap rest name l h' x hx)

/-- Model validation: typed accessors on the "Ignore unknown address type"
test case of `TestInstanceNetworkStatus`. -/
theorem checkUnknownTypeTyped :
    InstanceNetworkStatus.IP ⟨unknownTypeMap⟩ "primary" = "192.168.0.1" ∧
    InstanceNetworkStatus.FloatingIP ⟨unknownTypeMap⟩ "primary" =
      "10.0.0.1" := by
  constructor <;> rfl

/-- C3: entries whose type tag is neither "fixed" nor "floating" are
excluded from the typed accessors — removing them changes neither `IP` nor
`FloatingIP` — but they are not excluded from the full flattened list:
every IPv4 entry contributes a node address to `Addresses()` whatever its
tag. -/
theorem unknown_tags_excluded_from_typed_not_full :
    ∀ (m : List (String × List networkAddress)) (name : String),
      (InstanceNetworkStatus.IP ⟨keepKnownTypes m⟩ name =
          InstanceNetworkStatus.IP ⟨m⟩ name ∧
        InstanceNetworkStatus.FloatingIP ⟨keepKnownTypes m⟩ name =
          InstanceNetworkStatus.FloatingIP ⟨m⟩ name) ∧
      (∀ l a, lookupNet name m = some l → a ∈ l → a.Version = 4 →
        ({ type := nodeAddressTypeOfTag a.type, Address := a.Addr } :
          NodeAddress) ∈ InstanceNetworkStatus.Addresses ⟨m⟩) := by
  intro m name
  refine ⟨⟨?_, ?_⟩, ?_⟩
  · simp only [InstanceNetworkStatus.IP, lookupNet_keepKnownTypes]
    cases lookupNet name m with
    | none => rfl
    | some l => simpa using firstAddrOfType_filter "fixed" (Or.inl rfl) l
  · simp only [InstanceNetworkStatus.FloatingIP, lookupNet_keepKnownTypes]
    cases lookupNet name m with
    | none => rfl
    | some l => simpa using firstAddrOfType_filter "floating" (Or.inr rfl) l
  · intro l a hl ha h4
    exact mem_addressesOfMap m name l hl _ (mem_nodeAddressesOfList l a ha h4)

/-- Witness for C3: in the "Ignore unknown address type" test map, the
IPv4 entry tagged "not-valid" contributes a node address to the full
list. -/
theorem unknown_tags_excluded_from_typed_not_full_witness :
    lookupNet "primary" unknownTypeMap = some unknownTypeList ∧
    (⟨4, "192.168.0.2", "not-valid", macAddr1⟩ : networkAddress) ∈
      unknownTypeList ∧
    (⟨4, "192.168.0.2", "not-valid", macAddr1⟩ : networkAddress).Version =
      4 ∧
    ({ type := nodeAddressTypeOfTag "not-valid",
       Address := "192.168.0.2" } : NodeAddress) ∈
      InstanceNetworkStatus.Addresses ⟨unknownTypeMap⟩ :=
  ⟨rfl, by decide, rfl,
    (unknown_tags_excluded_from_typed_not_full unknownTypeMap "primary").2
      unknownTypeList ⟨4, "192.168.0.2", "not-valid", macAddr1⟩ rfl
      (by decide) rfl⟩

/-- Flattening an address map is a homomorphism for concatenation of
enumerations: networks enumerated earlier contribute their node addresses
earlier. -/
theorem addressesOfMap_append :
    ∀ m₁ m₂ : List (String × List networkAddress),
      addressesOfMap (m₁ ++ m₂) = addressesOfMap m₁ ++ addressesOfMap m₂
  | [], _ => rfl
  | (n, l) :: rest, m₂ => by
      simp [addressesOfMap, addressesOfMap_append rest m₂, List.append_assoc]

/-- First-match lookup is invariant under permutation of an address map
with pairwise-distinct network names. -/
theorem lookupNet_perm {m m' : List (String × List networkAddress)}
    (h : m.Perm m') (hd : (m.map Prod.fst).Nodup) (name : String) :
    lookupNet name m = lookupNet name m' := by
  revert hd
  induction h with
  | nil => intro _; rfl
  | cons x h ih =>
      intro hd
      obtain ⟨n, l⟩ := x
      simp only [List.map_cons, List.nodup_cons] at hd
      by_cases hn : n = name
      · simp [lookupNet, hn]
      · simp only [lookupNet, if_neg hn]
        exact ih hd.2
  | swap x y l =>
      intro hd
      obtain ⟨nx, lx⟩ := x
      obtain ⟨ny, ly⟩ := y
      simp only [List.map_cons, List.nodup_cons, List.mem_cons] at hd
      have hxy : ¬(ny = nx) := fun hc => hd.1 (Or.inl hc)
      by_cases h1 : ny = name <;> by_cases h2 : nx = name
      · exact absurd (h1.trans h2.symm) hxy
      · simp [lookupNet, h1, h2]
      · simp [lookupNet, h1, h2]
      · simp [lookupNet, h1, h2]
  | trans p₁ p₂ ih₁ ih₂ =>
      intro hd
      have hd₂ := (p₁.map Prod.fst).nodup hd
      exact (ih₁ hd).trans (ih₂ hd₂)

/-- Counterexample to C4 as stated: on the enumeration that lists
"primary" before "extraNet1", the flattened list puts the primary
network's address first, so the extra network's addresses do not appear
before the primary network's. -/
theorem extras_before_primary_counterexample :
    InstanceNetworkStatus.Addresses ⟨primaryFirstMap⟩ =
      [ ⟨NodeAddressType.internalIP, "192.168.0.1"⟩,
        ⟨NodeAddressType.internalIP, "192.168.1.1"⟩ ] ∧
    InstanceNetworkStatus.Addresses ⟨primaryFirstMap⟩ ≠
      [ ⟨NodeAddressType.internalIP, "192.168.1.1"⟩,
        ⟨NodeAddressType.internalIP, "192.168.0.1"⟩ ] := by
  constructor
  · rfl
  · decide

/-- C4 (amended): `Addresses()` flattens the networks in enumeration
order — so the extra networks' node addresses precede the primary
network's exactly when the enumeration lists the extra networks before
"primary" — while the typed lookups `IP(name)` and `FloatingIP(name)` are
unchanged under any permutation of the enumeration with distinct network
names. -/
theorem addresses_enumeration_order_and_lookup_invariance :
    (∀ (extras : List (String × List networkAddress))
        (pl : List networkAddress),
      InstanceNetworkStatus.Addresses ⟨extras ++ [("primary", pl)]⟩ =
        InstanceNetworkStatus.Addresses ⟨extras⟩ ++
          nodeAddressesOfList pl) ∧
    (∀ (m m' : List (String × List networkAddress)) (name : String),
      m.Perm m' → (m.map Prod.fst).Nodup →
      InstanceNetworkStatus.IP ⟨m⟩ name =
          InstanceNetworkStatus.IP ⟨m'⟩ name ∧
        InstanceNetworkStatus.FloatingIP ⟨m⟩ name =
          InstanceNetworkStatus.FloatingIP ⟨m'⟩ name) := by
  constructor
  · intro extras pl
    simp only [InstanceNetworkStatus.Addresses, addressesOfMap_append]
    simp [addressesOfMap]
  · intro m m' name hp hd
    constructor <;>
      simp only [InstanceNetworkStatus.IP, InstanceNetworkStatus.FloatingIP,
        lookupNet_perm hp hd name]

/-- Witness for C4 (amended): swapping two one-address networks leaves the
typed lookups unchanged. -/
theorem addresses_enumeration_order_and_lookup_invariance_witness :
    (([("a", permListA), ("b", permListB)] :
        List (String × List networkAddress)).Perm
      [("b", permListB), ("a", permListA)]) ∧
    (([("a", permListA), ("b", permListB)].map Prod.fst).Nodup) ∧
    (InstanceNetworkStatus.IP ⟨[("a", permListA), ("b", permListB)]⟩ "a" =
        InstanceNetworkStatus.IP
          ⟨[("b", permListB), ("a", permListA)]⟩ "a" ∧
      InstanceNetworkStatus.FloatingIP
          ⟨[("a", permListA), ("b", permListB)]⟩ "a" =
        InstanceNetworkStatus.FloatingIP
          ⟨[("b", permListB), ("a", permListA)]⟩ "a") :=
  ⟨List.Perm.swap ("b", permListB) ("a", permListA) [],
    by decide,
    addresses_enumeration_order_and_lookup_invariance.2
      [("a", permListA), ("b", permListB)]
      [("b", permListB), ("a", permListA)] "a"
      (List.Perm.swap ("b", permListB) ("a", permListA) []) (by decide)⟩
